import Mathlib

/-!
Verification of the event-connection and dispatch bookkeeping of the
`mpl_events` library (file `src/mpl_events/_base.py`), shallowly embedded
in Lean.  Matplotlib itself (canvas, figure, callback registry) is an
external collaborator: it is modelled abstractly as a registry that hands
out fresh positive opaque connection ids and a figure object that may be
destroyed at any time (the weak reference then dereferences to `None`).
-/

set_option maxHeartbeats 1000000

namespace MplEvents

/-- The enum `MplEvent` of `_base.py`: all actual matplotlib events.
The `value` of an item is the original matplotlib event name. -/
inductive MplEvent where
  | KEY_PRESS
  | KEY_RELEASE
  | MOUSE_BUTTON_PRESS
  | MOUSE_BUTTON_RELEASE
  | MOUSE_MOVE
  | MOUSE_WHEEL_SCROLL
  | FIGURE_RESIZE
  | FIGURE_ENTER
  | FIGURE_LEAVE
  | FIGURE_CLOSE
  | AXES_ENTER
  | AXES_LEAVE
  | PICK
  | DRAW
  deriving DecidableEq, Repr, Fintype

/-- `MplEvent` item value: the original matplotlib event name string. -/
def MplEvent.value : MplEvent → String
  | .KEY_PRESS => "key_press_event"
  | .KEY_RELEASE => "key_release_event"
  | .MOUSE_BUTTON_PRESS => "button_press_event"
  | .MOUSE_BUTTON_RELEASE => "button_release_event"
  | .MOUSE_MOVE => "motion_notify_event"
  | .MOUSE_WHEEL_SCROLL => "scroll_event"
  | .FIGURE_RESIZE => "resize_event"
  | .FIGURE_ENTER => "figure_enter_event"
  | .FIGURE_LEAVE => "figure_leave_event"
  | .FIGURE_CLOSE => "close_event"
  | .AXES_ENTER => "axes_enter_event"
  | .AXES_LEAVE => "axes_leave_event"
  | .PICK => "pick_event"
  | .DRAW => "draw_event"

/-- The 14 enum items in declaration order. -/
def allMplEvents : List MplEvent :=
  [.KEY_PRESS, .KEY_RELEASE, .MOUSE_BUTTON_PRESS, .MOUSE_BUTTON_RELEASE,
   .MOUSE_MOVE, .MOUSE_WHEEL_SCROLL, .FIGURE_RESIZE, .FIGURE_ENTER,
   .FIGURE_LEAVE, .FIGURE_CLOSE, .AXES_ENTER, .AXES_LEAVE, .PICK, .DRAW]

/-- Model of the external canvas callback registry (`canvas.mpl_connect` /
`canvas.mpl_disconnect`).  The registry hands out fresh positive opaque ids
(the registry itself is out of scope of the spec); `active_cids` is the set
of ids currently registered, i.e. obtained and not yet released. -/
structure Canvas where
  next_cid : Nat
  active_cids : List Int
  deriving DecidableEq, Repr

/-- `canvas.mpl_connect(...)`: returns a fresh id and registers it. -/
def Canvas.mpl_connect (c : Canvas) : Int × Canvas :=
  ((c.next_cid : Int), ⟨c.next_cid + 1, (c.next_cid : Int) :: c.active_cids⟩)

/-- `canvas.mpl_disconnect(cid)`: releases the id from the registry. -/
def Canvas.mpl_disconnect (c : Canvas) (cid : Int) : Canvas :=
  ⟨c.next_cid, c.active_cids.filter (fun i => i != cid)⟩

/-- A bound handler method, identified by the class the attribute was found
on and the method name (the value `getattr(self, name)` returns). -/
structure Handler where
  cls : String
  meth : String
  deriving DecidableEq, Repr

/-- A matplotlib figure object: its address (target of the weak reference)
and whether `figure.canvas` is truthy. -/
structure Figure where
  addr : Nat
  hasCanvas : Bool
  deriving DecidableEq, Repr

/-- The external world a connection lives in: whether the owning figure
object still exists (the weak reference target), and the callback registry
of its canvas. -/
structure World where
  figureAlive : Bool
  canvas : Canvas
  deriving DecidableEq, Repr

/-- State of `MplEventConnection`: the weak reference to the figure
(`self._figure`, stored as the figure address), the event kind
(`self._event`), the handler callable (`self._handler`) and the native
connection id (`self._id`, sentinel `-1` when not connected). -/
structure MplEventConnection where
  figure_ref : Nat
  event : MplEvent
  handler : Handler
  id : Int
  deriving DecidableEq, Repr

/-- `MplEventConnection.__init__`: raises `ValueError` when the figure has
no canvas; otherwise stores the weak reference, event and handler and sets
the id to the sentinel `-1`. -/
def MplEventConnection.init (fig : Figure) (e : MplEvent) (h : Handler) :
    Except String MplEventConnection :=
  if !fig.hasCanvas then .error "The figure has no a canvas"
  else .ok ⟨fig.addr, e, h, -1⟩

/-- The `figure` property: dereferences the weak reference, `None` once the
figure has been destroyed. -/
def MplEventConnection.figure (c : MplEventConnection) (w : World) : Option Nat :=
  if w.figureAlive then some c.figure_ref else none

/-- The `valid` property: `self.figure is not None`. -/
def MplEventConnection.valid (c : MplEventConnection) (w : World) : Bool :=
  (c.figure w).isSome

/-- The `connected` property: `self._id > 0 and self.valid`. -/
def MplEventConnection.connected (c : MplEventConnection) (w : World) : Bool :=
  decide (c.id > 0) && c.valid w

/-- `MplEventConnection.connect`: when the figure ref is dead, log an error,
set the id to `-1` and return; when already connected, return; otherwise
register the handler with the canvas registry and store the new id. -/
def MplEventConnection.connect (c : MplEventConnection) (w : World) :
    World × MplEventConnection :=
  if !c.valid w then (w, { c with id := -1 })
  else if c.connected w then (w, c)
  else
    let r := w.canvas.mpl_connect
    ({ w with canvas := r.2 }, { c with id := r.1 })

/-- `MplEventConnection.disconnect`: when not connected, return; otherwise
release the id from the canvas registry and reset the id to `-1`. -/
def MplEventConnection.disconnect (c : MplEventConnection) (w : World) :
    World × MplEventConnection :=
  if !c.connected w then (w, c)
  else ({ w with canvas := w.canvas.mpl_disconnect c.id }, { c with id := -1 })

/-- Destruction of the externally-owned figure: the weak reference target
disappears; the connection object itself is untouched. -/
def destroyFigure (s : World × MplEventConnection) : World × MplEventConnection :=
  ({ s.1 with figureAlive := false }, s.2)

/-- Initial state: a freshly constructed connection (id `-1`) on a live
figure whose registry has handed out no id yet. -/
def initState (e : MplEvent) (h : Handler) : World × MplEventConnection :=
  (⟨true, ⟨1, []⟩⟩, ⟨0, e, h, -1⟩)

/-- States reachable from a freshly constructed connection by the API
operations and by external destruction of the figure. -/
inductive Reachable : World × MplEventConnection → Prop where
  | init (e : MplEvent) (h : Handler) : Reachable (initState e h)
  | connect {s} : Reachable s → Reachable (s.2.connect s.1)
  | disconnect {s} : Reachable s → Reachable (s.2.disconnect s.1)
  | destroy {s} : Reachable s → Reachable (destroyFigure s)

/-- The connection holds a live native id: the owning figure (and hence its
registry) still exists and the stored id is registered, i.e. was obtained
from the registry and has not been released. -/
def LiveCid (s : World × MplEventConnection) : Prop :=
  s.1.figureAlive = true ∧ s.2.id ∈ s.1.canvas.active_cids

/-- Invariant relating a connection's stored id to the registry. -/
def ConnInv (s : World × MplEventConnection) : Prop :=
  0 < s.1.canvas.next_cid ∧ (∀ i ∈ s.1.canvas.active_cids, 0 < i) ∧
    (s.2.id ∈ s.1.canvas.active_cids ↔ 0 < s.2.id)

theorem valid_eq_figureAlive (c : MplEventConnection) (w : World) :
    c.valid w = w.figureAlive := by
  cases h : w.figureAlive <;>
    simp [MplEventConnection.valid, MplEventConnection.figure, h]

theorem connInv_connect {s : World × MplEventConnection} (h : ConnInv s) :
    ConnInv (s.2.connect s.1) := by
  obtain ⟨w, c⟩ := s
  obtain ⟨h1, h2, h3⟩ := h
  simp only [MplEventConnection.connect]
  split
  · refine ⟨h1, h2, ?_⟩
    show (-1 : Int) ∈ w.canvas.active_cids ↔ 0 < (-1 : Int)
    constructor
    · intro hm
      exact absurd (h2 _ hm) (by decide)
    · intro h0
      exact absurd h0 (by decide)
  · split
    · exact ⟨h1, h2, h3⟩
    · refine ⟨Nat.succ_pos _, ?_, ?_⟩
      · show ∀ i ∈ (w.canvas.next_cid : Int) :: w.canvas.active_cids, 0 < i
        intro i hi
        rcases List.mem_cons.mp hi with hEq | hMem
        · subst hEq; exact_mod_cast h1
        · exact h2 _ hMem
      · show (w.canvas.next_cid : Int) ∈ (w.canvas.next_cid : Int) :: w.canvas.active_cids ↔
          0 < (w.canvas.next_cid : Int)
        constructor
        · intro _; exact_mod_cast h1
        · intro _; exact List.mem_cons_self _ _

theorem connInv_disconnect {s : World × MplEventConnection} (h : ConnInv s) :
    ConnInv (s.2.disconnect s.1) := by
  obtain ⟨w, c⟩ := s
  obtain ⟨h1, h2, h3⟩ := h
  simp only [MplEventConnection.disconnect]
  split
  · exact ⟨h1, h2, h3⟩
  · refine ⟨h1, ?_, ?_⟩
    · show ∀ i ∈ w.canvas.active_cids.filter (fun i => i != c.id), 0 < i
      intro i hi
      exact h2 _ (List.mem_of_mem_filter hi)
    · show (-1 : Int) ∈ w.canvas.active_cids.filter (fun i => i != c.id) ↔ 0 < (-1 : Int)
      constructor
      · intro hm
        exact absurd (h2 _ (List.mem_of_mem_filter hm)) (by decide)
      · intro h0
        exact absurd h0 (by decide)

theorem connInv_destroy {s : World × MplEventConnection} (h : ConnInv s) :
    ConnInv (destroyFigure s) := by
  obtain ⟨h1, h2, h3⟩ := h
  exact ⟨h1, h2, h3⟩

theorem reachable_connInv {s : World × MplEventConnection} (h : Reachable s) :
    ConnInv s := by
  induction h with
  | init e hd =>
      refine ⟨Nat.one_pos, ?_, ?_⟩
      · intro i hi; simp [initState] at hi
      · simp [initState]
  | connect _ ih => exact connInv_connect ih
  | disconnect _ ih => exact connInv_disconnect ih
  | destroy _ ih => exact connInv_destroy ih

/-- A call of one of the two connection methods. -/
inductive ConnOp where
  | connectOp
  | disconnectOp
  deriving DecidableEq, Repr

/-- Apply one connection method call to the world/connection pair. -/
def applyConnOp (s : World × MplEventConnection) : ConnOp → World × MplEventConnection
  | .connectOp => s.2.connect s.1
  | .disconnectOp => s.2.disconnect s.1

/-- Apply a sequence of connect/disconnect calls. -/
def applyConnOps (s : World × MplEventConnection) (ops : List ConnOp) :
    World × MplEventConnection :=
  ops.foldl applyConnOp s

theorem applyConnOp_frame (s : World × MplEventConnection) (op : ConnOp) :
    (applyConnOp s op).2.figure_ref = s.2.figure_ref ∧
      (applyConnOp s op).2.event = s.2.event ∧
      (applyConnOp s op).2.handler = s.2.handler ∧
      (applyConnOp s op).1.figureAlive = s.1.figureAlive := by
  obtain ⟨w, c⟩ := s
  cases op with
  | connectOp =>
      simp only [applyConnOp, MplEventConnection.connect]
      split
      · exact ⟨rfl, rfl, rfl, rfl⟩
      · split
        · exact ⟨rfl, rfl, rfl, rfl⟩
        · exact ⟨rfl, rfl, rfl, rfl⟩
  | disconnectOp =>
      simp only [applyConnOp, MplEventConnection.disconnect]
      split
      · exact ⟨rfl, rfl, rfl, rfl⟩
      · exact ⟨rfl, rfl, rfl, rfl⟩

/-- State of `MplEventDispatcher`: the weak reference to the figure
(`self._figure`), the connection list (`self._mpl_connections`) and the
ordered filter list of the spec's data model; each filter callable is
represented by the `Optional[bool]` result it returns for the dispatched
event (the filter-chain code itself is absent from `src`, see
`dispatchEvent`). -/
structure MplEventDispatcher where
  figure_ref : Nat
  mpl_connections : List MplEventConnection
  event_filters : List (Option Bool)
  deriving DecidableEq, Repr

/-- The dispatcher's `figure` property: dereferences the weak reference. -/
def MplEventDispatcher.figure (d : MplEventDispatcher) (w : World) : Option Nat :=
  if w.figureAlive then some d.figure_ref else none

/-- The dispatcher's `valid` property: `self.figure is not None`. -/
def MplEventDispatcher.valid (d : MplEventDispatcher) (w : World) : Bool :=
  (d.figure w).isSome

/-- Python truthiness of a filter's `Optional[bool]` result. -/
def truthy : Option Bool → Bool
  | some b => b
  | none => false

/-- One observable step of dispatching an event: either filter number `i`
of the ordered filter list is called, or the handler is called. -/
inductive DispatchStep where
  | runFilter (i : Nat)
  | runHandler
  deriving DecidableEq, Repr

/-- Run the filter chain from filter index `i` on: each filter is called in
order; a truthy result intercepts the event, stopping the chain and
preventing the handler call; otherwise the handler runs at the end. -/
def dispatchFrom (i : Nat) : List (Option Bool) → List DispatchStep
  | [] => [.runHandler]
  | r :: rest =>
      .runFilter i :: (if truthy r then [] else dispatchFrom (i + 1) rest)

/-- Modelled from the spec: the dispatcher's filter chain and its
interception of dispatch are described by the spec ("an optional filter
chain run before each handler", "a filter-chain that can
intercept/short-circuit dispatch before a handler runs") and declared in
`_types.EventFilter_Type`, but the code that runs the chain is absent from
`src/mpl_events/_base.py`.  `dispatchEvent` is the trace of one dispatch of
an event with a connected handler: the dispatcher's ordered filters run
first; a truthy (intercepting) result short-circuits, so the handler runs
only when no filter intercepts. -/
def dispatchEvent (d : MplEventDispatcher) : List DispatchStep :=
  dispatchFrom 0 d.event_filters

theorem runHandler_mem_dispatchFrom (i : Nat) (fs : List (Option Bool)) :
    DispatchStep.runHandler ∈ dispatchFrom i fs ↔ ∀ r ∈ fs, truthy r = false := by
  induction fs generalizing i with
  | nil => simp [dispatchFrom]
  | cons r rest ih =>
      cases hr : truthy r <;> simp [dispatchFrom, hr, ih]

theorem dispatchFrom_no_intercept (i : Nat) (fs : List (Option Bool))
    (h : ∀ r ∈ fs, truthy r = false) :
    dispatchFrom i fs =
      (List.range' i fs.length).map DispatchStep.runFilter ++ [DispatchStep.runHandler] := by
  induction fs generalizing i with
  | nil => simp [dispatchFrom]
  | cons r rest ih =>
      have hr : truthy r = false := h r (List.mem_cons_self _ _)
      simp [dispatchFrom, hr, List.range'_succ,
        ih (i + 1) (fun x hx => h x (List.mem_cons_of_mem _ hx))]

/-- A Python class as seen by the dispatcher machinery: its name, its own
`__dict__` method attributes (name, and whether the attribute is callable —
a `HandlerDescriptor` yields the bound method, which is callable), and its
own `mpl_event_handlers` dict when the class `__dict__` holds one. -/
structure PyClass where
  cname : String
  attrs : List (String × Bool)
  mpl_event_handlers : Option (List (MplEvent × String))
  deriving DecidableEq, Repr

/-- Python dict assignment `d[k] = v`: an existing key keeps its position
and gets the new value; a new key is appended (insertion order). -/
def dictInsert (d : List (MplEvent × String)) (k : MplEvent) (v : String) :
    List (MplEvent × String) :=
  if d.any (fun p => p.1 == k) then
    d.map (fun p => if p.1 == k then (k, v) else p)
  else d ++ [(k, v)]

/-- `mpl_event_handler(event_type)` applied to method `name` of class
`owner` — the effect of `HandlerDescriptor.__set_name__` at class creation:
when `mpl_event_handlers` is not in the owner's own `__dict__`, a fresh
empty dict is installed on the owner; then `owner.mpl_event_handlers[event_type] = name`. -/
def mpl_event_handler (event_type : MplEvent) (name : String) (owner : PyClass) :
    PyClass :=
  let d := match owner.mpl_event_handlers with
    | some d => d
    | none => []
  { owner with mpl_event_handlers := some (dictInsert d event_type name) }

/-- The default handler method name the base class registers for an event
(`on_key_press`, `on_mouse_move`, ...). -/
def defaultHandlerName : MplEvent → String
  | .KEY_PRESS => "on_key_press"
  | .KEY_RELEASE => "on_key_release"
  | .MOUSE_BUTTON_PRESS => "on_mouse_button_press"
  | .MOUSE_BUTTON_RELEASE => "on_mouse_button_release"
  | .MOUSE_MOVE => "on_mouse_move"
  | .MOUSE_WHEEL_SCROLL => "on_mouse_wheel_scroll"
  | .FIGURE_RESIZE => "on_figure_resize"
  | .FIGURE_ENTER => "on_figure_enter"
  | .FIGURE_LEAVE => "on_figure_leave"
  | .FIGURE_CLOSE => "on_figure_close"
  | .AXES_ENTER => "on_axes_enter"
  | .AXES_LEAVE => "on_axes_leave"
  | .PICK => "on_pick"
  | .DRAW => "on_draw"

/-- The class body of `MplEventDispatcher` before the descriptors'
`__set_name__` hooks run: `mpl_event_handlers = {}` plus the 14 default
`on_*` handler methods. -/
def baseClassBody : PyClass :=
  { cname := "MplEventDispatcher",
    attrs := allMplEvents.map (fun e => (defaultHandlerName e, true)),
    mpl_event_handlers := some [] }

/-- The base class `MplEventDispatcher` after class creation: the 14
`mpl_event_handler` decorators have registered the default handler names
in declaration order. -/
def baseClass : PyClass :=
  allMplEvents.foldl (fun c e => mpl_event_handler e (defaultHandlerName e) c)
    baseClassBody

/-- The handler-name map of the base class. -/
def base_mpl_event_handlers : List (MplEvent × String) :=
  allMplEvents.map (fun e => (e, defaultHandlerName e))

/-- `cls is MplEventDispatcher` (class identity; class names are unique). -/
def isMplEventDispatcherClass (c : PyClass) : Bool :=
  c.cname == "MplEventDispatcher"

/-- `getattr(self, name)`: the attribute found on the first class of the
instance's MRO whose `__dict__` holds `name` — the bound method identified
by that class and the name, with its callable flag. -/
def pyGetattr (mro : List PyClass) (name : String) : Option (Handler × Bool) :=
  mro.findSome? (fun c =>
    (c.attrs.lookup name).map (fun cb => (⟨c.cname, name⟩, cb)))

/-- `self.mpl_event_handlers`: attribute lookup along the MRO — the dict of
the first class whose own `__dict__` holds one (the base class always
does). -/
def instance_mpl_event_handlers (mro : List PyClass) : List (MplEvent × String) :=
  match mro.findSome? (fun c => c.mpl_event_handlers) with
  | some d => d
  | none => []

/-- `MplEventDispatcher._get_handler`: scan the MRO for a class other than
`MplEventDispatcher` whose `__dict__` holds `handler_name`; on a hit take
`getattr(self, handler_name)` and return it when callable.  (When the
attribute found by `getattr` is not callable, the loop keeps scanning but
`getattr` keeps returning that same first attribute, so the result is
`None`.) -/
def _get_handler (mro : List PyClass) (handler_name : String) : Option Handler :=
  if mro.any (fun c =>
      !isMplEventDispatcherClass c && (c.attrs.lookup handler_name).isSome) then
    match pyGetattr mro handler_name with
    | some (h, cb) => if cb then some h else none
    | none => none
  else none

/-- One iteration of the `_init_connections` loop: when `_get_handler`
finds a handler for the entry, construct the `MplEventConnection`
(propagating its `ValueError`) and append it. -/
def addConnForHandlerEntry (mro : List PyClass) (fig : Figure)
    (conns : List MplEventConnection) (p : MplEvent × String) :
    Except String (List MplEventConnection) :=
  match _get_handler mro p.2 with
  | some handler =>
      match MplEventConnection.init fig p.1 handler with
      | .ok conn => .ok (conns ++ [conn])
      | .error e => .error e
  | none => .ok conns

/-- `MplEventDispatcher._init_connections`, run once at instance
construction: iterate `self.mpl_event_handlers.items()` in order and create
one connection per entry whose handler `_get_handler` finds. -/
def _init_connections (mro : List PyClass) (fig : Figure) :
    Except String (List MplEventConnection) :=
  (instance_mpl_event_handlers mro).foldlM (addConnForHandlerEntry mro fig) []

/-- The subclass of `test_event_dispatcher_change_handler`: it reassigns
the key-press handler with `@mpl_event_handler(MplEvent.KEY_PRESS)` under
the name `on_key_press_custom` and also overrides `on_key_release`. -/
def changeHandlerDispatcher : PyClass :=
  mpl_event_handler .KEY_PRESS "on_key_press_custom"
    ⟨"EventDispatcher", [("on_key_press_custom", true), ("on_key_release", true)], none⟩

theorem instance_handlers_of_sub_none : ∀ (Ds : List PyClass),
    (∀ D ∈ Ds, D.mpl_event_handlers = none) →
    instance_mpl_event_handlers (Ds ++ [baseClass]) = base_mpl_event_handlers := by
  intro Ds
  induction Ds with
  | nil =>
      intro _
      decide
  | cons D Ds ih =>
      intro hd
      have h0 : D.mpl_event_handlers = none := hd D (List.mem_cons_self _ _)
      have hrest := ih (fun D' hD' => hd D' (List.mem_cons_of_mem _ hD'))
      simpa [instance_mpl_event_handlers, List.findSome?_cons, h0]
        using hrest

theorem get_handler_none_of_no_override (Ds : List PyClass) (name : String)
    (hb : ∀ D ∈ Ds, D.attrs.lookup name = none) :
    _get_handler (Ds ++ [baseClass]) name = none := by
  have hany : (Ds ++ [baseClass]).any (fun c =>
      !isMplEventDispatcherClass c && (c.attrs.lookup name).isSome) = false := by
    rw [List.any_eq_false]
    intro c hcmem
    rcases List.mem_append.mp hcmem with hD | hB
    · simp [hb c hD]
    · have hc : c = baseClass := List.mem_singleton.mp hB
      subst hc
      simp [isMplEventDispatcherClass, baseClass, baseClassBody, allMplEvents,
        mpl_event_handler]
  simp [_get_handler, hany]

theorem foldlM_addConn_of_no_handler (mro : List PyClass) (fig : Figure) :
    ∀ (m : List (MplEvent × String)) (acc : List MplEventConnection),
      (∀ p ∈ m, _get_handler mro p.2 = none) →
      m.foldlM (addConnForHandlerEntry mro fig) acc = .ok acc := by
  intro m
  induction m with
  | nil =>
      intro acc _
      rfl
  | cons p m ih =>
      intro acc h
      have h0 : _get_handler mro p.2 = none := h p (List.mem_cons_self _ _)
      have hstep : addConnForHandlerEntry mro fig acc p = .ok acc := by
        rw [addConnForHandlerEntry, h0]
      show addConnForHandlerEntry mro fig acc p >>= (fun a => m.foldlM _ a) = .ok acc
      rw [hstep]
      show m.foldlM (addConnForHandlerEntry mro fig) acc = .ok acc
      exact ih acc (fun q hq => h q (List.mem_cons_of_mem _ hq))

theorem connected_eq_false_of_id_nonpos (c : MplEventConnection) (w : World)
    (h : c.id ≤ 0) : c.connected w = false := by
  rw [MplEventConnection.connected]
  rw [decide_eq_false (by omega : ¬c.id > 0)]
  rw [Bool.false_and]

/-- C1: for a dispatcher instance dispatching an event with a connected
handler, every callable in the ordered filter list runs before the handler
(the handler runs only after all filters have run, in list order), and if
some filter intercepts (returns a truthy short-circuit result) the handler
is not run. -/
theorem filters_run_before_handler (d : MplEventDispatcher) :
    (DispatchStep.runHandler ∈ dispatchEvent d →
        dispatchEvent d =
          (List.range d.event_filters.length).map DispatchStep.runFilter ++
            [DispatchStep.runHandler]) ∧
      ((∃ r ∈ d.event_filters, truthy r = true) →
        DispatchStep.runHandler ∉ dispatchEvent d) := by
  constructor
  · intro h
    have hall := (runHandler_mem_dispatchFrom 0 d.event_filters).mp h
    rw [dispatchEvent, dispatchFrom_no_intercept 0 _ hall, List.range_eq_range']
  · rintro ⟨r, hr, ht⟩ h
    have hall := (runHandler_mem_dispatchFrom 0 d.event_filters).mp h
    rw [hall r hr] at ht
    cases ht

/-- C1 witness: a two-filter chain with no interception runs filter 0, then
filter 1, then the handler; a chain whose filter returns `True` prevents
the handler from running. -/
theorem filters_run_before_handler_witness :
    dispatchEvent ⟨0, [], [none, some false]⟩ =
        [DispatchStep.runFilter 0, DispatchStep.runFilter 1, DispatchStep.runHandler] ∧
      DispatchStep.runHandler ∉ dispatchEvent ⟨0, [], [some true]⟩ := by
  constructor
  · have h := (filters_run_before_handler ⟨0, [], [none, some false]⟩).1 (by decide)
    rw [h]
    decide
  · exact (filters_run_before_handler ⟨0, [], [some true]⟩).2
      ⟨some true, by simp, rfl⟩

/-- C2: in every reachable state, `connected` returns `True` iff the
connection holds a live native connection id: an id obtained from the
canvas registry (`mpl_connect`) and not yet released (`mpl_disconnect`),
in a registry that still exists. -/
theorem connected_iff_holds_live_cid {s : World × MplEventConnection}
    (h : Reachable s) :
    s.2.connected s.1 = true ↔ LiveCid s := by
  obtain ⟨w, c⟩ := s
  obtain ⟨h1, h2, h3⟩ := reachable_connInv h
  rw [MplEventConnection.connected, valid_eq_figureAlive]
  rw [Bool.and_eq_true, decide_eq_true_eq]
  constructor
  · rintro ⟨ha, hb⟩
    exact ⟨hb, h3.mpr ha⟩
  · rintro ⟨ha, hb⟩
    exact ⟨h3.mp hb, ha⟩

/-- C2 witness: after one `connect` from a fresh connection, `connected` is
`True` and the stored id is live in the canvas registry. -/
theorem connected_iff_holds_live_cid_witness :
    LiveCid ((initState .KEY_PRESS ⟨"D", "m"⟩).2.connect
      (initState .KEY_PRESS ⟨"D", "m"⟩).1) := by
  have h := connected_iff_holds_live_cid
    (Reachable.connect (Reachable.init .KEY_PRESS ⟨"D", "m"⟩))
  exact h.mp (by decide)

/-- C3: the `valid` property of both `MplEventConnection` and
`MplEventDispatcher` returns `True` iff the weakly-referenced owning
figure object still exists. -/
theorem valid_iff_figure_exists (w : World) (c : MplEventConnection)
    (d : MplEventDispatcher) :
    (c.valid w = true ↔ w.figureAlive = true) ∧
      (d.valid w = true ↔ w.figureAlive = true) := by
  constructor
  · cases h : w.figureAlive <;>
      simp [MplEventConnection.valid, MplEventConnection.figure, h]
  · cases h : w.figureAlive <;>
      simp [MplEventDispatcher.valid, MplEventDispatcher.figure, h]

/-- C4 (code bug): in the subclass of `test_event_dispatcher_change_handler`
— which reassigns KEY_PRESS to `on_key_press_custom` with the decorator and
also overrides `on_key_release` — `_get_handler` does find the overridden
`on_key_release` as a callable on the subclass, yet `_init_connections`
creates only the KEY_PRESS connection: the decorator installed a fresh
`mpl_event_handlers` dict on the subclass instead of extending the
inherited one, so the KEY_RELEASE entry is lost. -/
theorem subclass_decorator_drops_inherited_handlers :
    _get_handler [changeHandlerDispatcher, baseClass] "on_key_release" =
        some ⟨"EventDispatcher", "on_key_release"⟩ ∧
      _init_connections [changeHandlerDispatcher, baseClass] ⟨0, true⟩ =
        .ok [⟨0, .KEY_PRESS, ⟨"EventDispatcher", "on_key_press_custom"⟩, -1⟩] := by
  exact ⟨by decide, rfl⟩

/-- C5: a dispatcher subclass that applies `mpl_event_handler` with event
kind `E` to a method of any name `n` services `E` through that method:
instance construction creates exactly the connection binding `E` to the
subclass method named `n`, and no connection through the default-named
handler. -/
theorem decorator_overrides_event_handler (cn n : String) (E : MplEvent)
    (fig : Figure) (hc : fig.hasCanvas = true)
    (hn : cn ≠ "MplEventDispatcher") :
    _init_connections
        [mpl_event_handler E n ⟨cn, [(n, true)], none⟩, baseClass] fig =
      .ok [⟨fig.addr, E, ⟨cn, n⟩, -1⟩] := by
  have hmap : instance_mpl_event_handlers
      [mpl_event_handler E n ⟨cn, [(n, true)], none⟩, baseClass] = [(E, n)] := by
    simp [instance_mpl_event_handlers, List.findSome?_cons, mpl_event_handler,
      dictInsert]
  have hbeq : (cn == "MplEventDispatcher") = false := by
    exact beq_eq_false_iff_ne.mpr hn
  have hget : _get_handler
      [mpl_event_handler E n ⟨cn, [(n, true)], none⟩, baseClass] n =
      some ⟨cn, n⟩ := by
    simp [_get_handler, pyGetattr, isMplEventDispatcherClass, mpl_event_handler,
      List.findSome?_cons, List.lookup, hbeq]
  rw [_init_connections, hmap]
  show addConnForHandlerEntry _ fig [] (E, n) >>= (fun a => List.foldlM _ a []) =
    .ok [⟨fig.addr, E, ⟨cn, n⟩, -1⟩]
  simp [addConnForHandlerEntry, hget, MplEventConnection.init, hc]

/-- C5 witness: a subclass `MyEventDispatcher` decorating
`on_my_key_press` with KEY_PRESS yields exactly the KEY_PRESS connection
through that method. -/
theorem decorator_overrides_event_handler_witness :
    _init_connections
        [mpl_event_handler .KEY_PRESS "on_my_key_press"
            ⟨"MyEventDispatcher", [("on_my_key_press", true)], none⟩, baseClass]
        ⟨0, true⟩ =
      .ok [⟨0, .KEY_PRESS, ⟨"MyEventDispatcher", "on_my_key_press"⟩, -1⟩] :=
  decorator_overrides_event_handler "MyEventDispatcher" "on_my_key_press"
    .KEY_PRESS ⟨0, true⟩ rfl (by decide)

/-- C6: `connect` on an already connected connection leaves the state
(world and connection, including the native id) unchanged; `disconnect` on
a non-connected connection leaves the state unchanged; after `disconnect`
the connection is not connected. -/
theorem connect_disconnect_idempotent (w : World) (c : MplEventConnection) :
    (c.connected w = true → c.connect w = (w, c)) ∧
      (c.connected w = false → c.disconnect w = (w, c)) ∧
      (c.disconnect w).2.connected (c.disconnect w).1 = false := by
  refine ⟨?_, ?_, ?_⟩
  · intro h
    have hv : c.valid w = true := by
      have hh := h
      rw [MplEventConnection.connected, Bool.and_eq_true] at hh
      exact hh.2
    simp [MplEventConnection.connect, hv, h]
  · intro h
    simp [MplEventConnection.disconnect, h]
  · cases h : c.connected w with
    | false =>
        have hd : c.disconnect w = (w, c) := by
          simp [MplEventConnection.disconnect, h]
        rw [hd]
        exact h
    | true =>
        have hd : c.disconnect w =
            ({ w with canvas := w.canvas.mpl_disconnect c.id },
             { c with id := -1 }) := by
          simp [MplEventConnection.disconnect, h]
        rw [hd]
        exact connected_eq_false_of_id_nonpos _ _
          (show (-1 : Int) ≤ 0 by decide)

/-- C6 witness: `connect` on a connected connection (id 5, live figure) is
the identity, and `disconnect` on a non-connected connection (id -1) is the
identity. -/
theorem connect_disconnect_idempotent_witness :
    MplEventConnection.connect ⟨0, .KEY_PRESS, ⟨"D", "m"⟩, 5⟩ ⟨true, ⟨6, [5]⟩⟩ =
        (⟨true, ⟨6, [5]⟩⟩, ⟨0, .KEY_PRESS, ⟨"D", "m"⟩, 5⟩) ∧
      MplEventConnection.disconnect ⟨0, .KEY_PRESS, ⟨"D", "m"⟩, -1⟩ ⟨true, ⟨6, []⟩⟩ =
        (⟨true, ⟨6, []⟩⟩, ⟨0, .KEY_PRESS, ⟨"D", "m"⟩, -1⟩) :=
  ⟨(connect_disconnect_idempotent ⟨true, ⟨6, [5]⟩⟩ _).1 (by decide),
   (connect_disconnect_idempotent ⟨true, ⟨6, []⟩⟩ _).2.1 (by decide)⟩

/-- C7: on a connection whose owning figure has been destroyed, `connect`
does not touch the canvas registry and leaves the connection unconnected
with the sentinel id -1, and `disconnect` is a no-op. -/
theorem invalid_connection_noop (w : World) (c : MplEventConnection)
    (h : w.figureAlive = false) :
    c.connect w = (w, { c with id := -1 }) ∧
      c.disconnect w = (w, c) ∧
      (c.connect w).2.connected (c.connect w).1 = false := by
  have hv : c.valid w = false := by rw [valid_eq_figureAlive, h]
  have hc : c.connected w = false := by
    rw [MplEventConnection.connected, hv, Bool.and_false]
  have h1 : c.connect w = (w, { c with id := -1 }) := by
    simp [MplEventConnection.connect, hv]
  refine ⟨h1, ?_, ?_⟩
  · simp [MplEventConnection.disconnect, hc]
  · rw [h1]
    exact connected_eq_false_of_id_nonpos _ _ (show (-1 : Int) ≤ 0 by decide)

/-- C7 witness: with a destroyed figure, `connect` only resets the id to -1
and `disconnect` changes nothing. -/
theorem invalid_connection_noop_witness :
    MplEventConnection.connect ⟨0, .KEY_PRESS, ⟨"D", "m"⟩, 3⟩ ⟨false, ⟨1, []⟩⟩ =
        (⟨false, ⟨1, []⟩⟩, ⟨0, .KEY_PRESS, ⟨"D", "m"⟩, -1⟩) ∧
      MplEventConnection.disconnect ⟨0, .KEY_PRESS, ⟨"D", "m"⟩, 3⟩ ⟨false, ⟨1, []⟩⟩ =
        (⟨false, ⟨1, []⟩⟩, ⟨0, .KEY_PRESS, ⟨"D", "m"⟩, 3⟩) ∧
      (MplEventConnection.connect ⟨0, .KEY_PRESS, ⟨"D", "m"⟩, 3⟩
          ⟨false, ⟨1, []⟩⟩).2.connected
        (MplEventConnection.connect ⟨0, .KEY_PRESS, ⟨"D", "m"⟩, 3⟩
          ⟨false, ⟨1, []⟩⟩).1 = false :=
  invalid_connection_noop ⟨false, ⟨1, []⟩⟩ ⟨0, .KEY_PRESS, ⟨"D", "m"⟩, 3⟩ rfl

/-- C8: the event-kind type is exactly the fixed enumeration of the 14
matplotlib event kinds, each mapping to its original native event-name
string. -/
theorem mplEvent_enumeration :
    (∀ e : MplEvent, e ∈ allMplEvents) ∧ allMplEvents.Nodup ∧
      allMplEvents.length = 14 ∧
      MplEvent.value .KEY_PRESS = "key_press_event" ∧
      MplEvent.value .KEY_RELEASE = "key_release_event" ∧
      MplEvent.value .MOUSE_BUTTON_PRESS = "button_press_event" ∧
      MplEvent.value .MOUSE_BUTTON_RELEASE = "button_release_event" ∧
      MplEvent.value .MOUSE_MOVE = "motion_notify_event" ∧
      MplEvent.value .MOUSE_WHEEL_SCROLL = "scroll_event" ∧
      MplEvent.value .FIGURE_RESIZE = "resize_event" ∧
      MplEvent.value .FIGURE_ENTER = "figure_enter_event" ∧
      MplEvent.value .FIGURE_LEAVE = "figure_leave_event" ∧
      MplEvent.value .FIGURE_CLOSE = "close_event" ∧
      MplEvent.value .AXES_ENTER = "axes_enter_event" ∧
      MplEvent.value .AXES_LEAVE = "axes_leave_event" ∧
      MplEvent.value .PICK = "pick_event" ∧
      MplEvent.value .DRAW = "draw_event" :=
  ⟨by decide, by decide, rfl, rfl, rfl, rfl, rfl, rfl, rfl, rfl, rfl, rfl,
   rfl, rfl, rfl, rfl, rfl⟩

/-- C9: for an instance of a dispatcher class whose hierarchy defines no
handler method outside the base class (and no decorated handler), the
connection list created at construction is empty: `_get_handler` skips
attributes found only on the base class. -/
theorem base_only_handlers_yield_no_connections (Ds : List PyClass)
    (fig : Figure)
    (hd : ∀ D ∈ Ds, D.mpl_event_handlers = none)
    (ha : ∀ D ∈ Ds, ∀ e : MplEvent, D.attrs.lookup (defaultHandlerName e) = none) :
    _init_connections (Ds ++ [baseClass]) fig = .ok [] := by
  rw [_init_connections, instance_handlers_of_sub_none Ds hd]
  apply foldlM_addConn_of_no_handler
  intro p hp
  obtain ⟨e, _, rfl⟩ := List.mem_map.mp hp
  exact get_handler_none_of_no_override Ds (defaultHandlerName e)
    (fun D hD => ha D hD e)

/-- C9 witness: a subclass defining only a non-handler method gets an empty
connection list. -/
theorem base_only_handlers_yield_no_connections_witness :
    _init_connections [⟨"MyDispatcher", [("helper", true)], none⟩, baseClass]
        ⟨0, true⟩ = .ok [] :=
  base_only_handlers_yield_no_connections
    [⟨"MyDispatcher", [("helper", true)], none⟩] ⟨0, true⟩
    (by decide) (by decide)

theorem applyConnOps_frame (s : World × MplEventConnection) (ops : List ConnOp) :
    (applyConnOps s ops).2.figure_ref = s.2.figure_ref ∧
      (applyConnOps s ops).2.event = s.2.event ∧
      (applyConnOps s ops).2.handler = s.2.handler ∧
      (applyConnOps s ops).1.figureAlive = s.1.figureAlive := by
  induction ops generalizing s with
  | nil => exact ⟨rfl, rfl, rfl, rfl⟩
  | cons op ops ih =>
      have h1 := applyConnOp_frame s op
      have h2 := ih (applyConnOp s op)
      exact ⟨h2.1.trans h1.1, h2.2.1.trans h1.2.1, h2.2.2.1.trans h1.2.2.1,
        h2.2.2.2.trans h1.2.2.2⟩

/-- C10: any sequence of `connect`/`disconnect` calls modifies only the
native connection id: the values of the `figure`, `event` and `handler`
properties are unchanged. -/
theorem connect_disconnect_frame (w : World) (c : MplEventConnection)
    (ops : List ConnOp) :
    (applyConnOps (w, c) ops).2.figure (applyConnOps (w, c) ops).1 =
        c.figure w ∧
      (applyConnOps (w, c) ops).2.event = c.event ∧
      (applyConnOps (w, c) ops).2.handler = c.handler ∧
      (applyConnOps (w, c) ops).2.figure_ref = c.figure_ref := by
  have h := applyConnOps_frame (w, c) ops
  refine ⟨?_, h.2.1, h.2.2.1, h.1⟩
  rw [MplEventConnection.figure, MplEventConnection.figure, h.1, h.2.2.2]

end MplEvents
